import Mathlib

/-!
Verification of the ClaritaPM conversational workflow engine.

This file is a shallow embedding of the Python sources
`llm_behavior_tree.py` and `main.py` (ClaritaPM).  External LLM
collaborators (`parse_with_llm`, `parse_validation_with_llm`,
`parse_text_with_llm`, `_ask_llm`) are modelled by an `Oracle` record
fixing their responses for one behavior-tree execution; a `none`
response models a raised exception.  Python dict values of `None` are
modelled as `Option.none`; a dict key that is genuinely absent is noted
where it matters (Python `dict.get(k, d)` returns the stored value,
even `None`, whenever the key is present, and `d` only when absent).
-/

namespace ClaritaPM

/-- Python `str.lower()` restricted to the ASCII alphabet used here. -/
def pyLower (s : String) : String := String.mk (s.toList.map Char.toLower)

/-- One step of Python `str.title()`: a letter that follows a
non-letter is uppercased, every other letter is lowercased.  The
boolean argument records whether the previous character was a letter. -/
def pyTitleAux : Bool → List Char → List Char
  | _, [] => []
  | prevAlpha, c :: cs =>
    (if prevAlpha then c.toLower else c.toUpper) :: pyTitleAux c.isAlpha cs

/-- Python `str.title()` (ASCII-faithful). -/
def pyTitle (s : String) : String := String.mk (pyTitleAux false s.toList)

/-- Python f-string interpolation of an optional value: `None` prints
as the four characters `None`. -/
def pyStr : Option String → String
  | some s => s
  | none => "None"

/-- Whether `pat` starts the character list `s`. -/
def startsWithSeq : List Char → List Char → Bool
  | [], _ => true
  | _ :: _, [] => false
  | a :: as, b :: bs => a == b && startsWithSeq as bs

/-- Whether `pat` occurs contiguously inside the character list. -/
def containsSeq (pat : List Char) : List Char → Bool
  | [] => startsWithSeq pat []
  | s@(_ :: rest) => startsWithSeq pat s || containsSeq pat rest

/-- Python substring containment `pat in s`. -/
def strContains (s pat : String) : Bool := containsSeq pat.toList s.toList

/-- The parsed-field dictionary produced by `parse_with_llm` /
`_create_langchain_chain`: the three optional fields plus the original
request.  All four keys are always present in the Python dict; a field
value of `None` is `Option.none` here. -/
structure FieldSet where
  target_page : Option String
  feature_type : Option String
  action : Option String
  original_request : String
deriving DecidableEq, Repr

/-- A Python dict value that is either a single string or a list of
strings (the `technical_changes` entry has both shapes in the source). -/
inductive StrOrList where
  | str : String → StrOrList
  | list : List String → StrOrList
deriving DecidableEq, Repr

/-- A ticket dict from `GenerateTicketsNode._generate_fallback_tickets`.
Keys that some tickets omit are `Option` (or default to `[]`): the
parent story has no `parent`, `files_to_modify` or
`acceptance_criteria` keys, and the backend subtask has no `parent` or
`system_impact` key. -/
structure Ticket where
  ttype : String
  title : String
  description : String
  system_impact : Option String := none
  technical_changes : StrOrList
  files_to_modify : List String := []
  parent : Option String := none
  dependencies : List String
  acceptance_criteria : List String := []
  estimate : String
  priority : String
deriving DecidableEq, Repr

/-- The persistence verbs of the backend-subtask guard
(`if action in ['save', 'submit', 'update', 'delete', 'create']`). -/
def persistenceVerbs : List String := ["save", "submit", "update", "delete", "create"]

/-- Whether the optional `action` value passes the backend-subtask
guard; Python `None in [...]` is `False`. -/
def isPersistenceAction : Option String → Bool
  | some a => persistenceVerbs.contains a
  | none => false

/-- `GenerateTicketsNode._generate_fallback_tickets`.  Returns `none`
when the Python function raises: with `target_page` or `feature_type`
stored as `None`, `parsed_data.get(..., '')` returns `None` (the key is
present) and the immediate `.title()` call raises `AttributeError`. -/
def generateFallbackTickets (parsed_data : FieldSet) : Option (List Ticket) :=
  match parsed_data.target_page, parsed_data.feature_type with
  | some target_page, some feature_type =>
    let action := parsed_data.action
    let parent_story : Ticket := {
      ttype := "parent_story"
      title := "Implement " ++ pyTitle feature_type ++ " on " ++ pyTitle target_page ++ " Page"
      description := "As a user, I want to " ++ pyStr action ++ " " ++ feature_type ++
        " on the " ++ target_page ++ " page so that I can interact with the system effectively."
      system_impact := some (pyTitle target_page ++ " page, " ++ feature_type ++ " functionality")
      technical_changes := StrOrList.str
        ("Add " ++ feature_type ++ " component to " ++ target_page ++ " page")
      dependencies := []
      estimate := "Medium (5 story points)"
      priority := "Medium" }
    let frontend_subtask : Ticket := {
      ttype := "subtask"
      parent := some parent_story.title
      title := "Create " ++ pyTitle feature_type ++ " Component for " ++ pyTitle target_page
      description := "Implement the " ++ feature_type ++ " component on the " ++ target_page ++
        " page with proper styling and functionality."
      technical_changes := StrOrList.list
        ["Create new " ++ feature_type ++ " component",
         "Integrate component into " ++ target_page ++ " page",
         "Add event handlers for " ++ pyStr action ++ " functionality"]
      files_to_modify := ["src/components/" ++ pyTitle target_page ++ ".js"]
      dependencies := []
      acceptance_criteria :=
        [pyTitle feature_type ++ " component renders correctly",
         "Component responds to user interactions",
         "Proper error handling implemented"]
      estimate := "Small (3 story points)"
      priority := "Medium" }
    let backend_subtasks : List Ticket :=
      match action with
      | some a =>
        if persistenceVerbs.contains a then
          [{ ttype := "subtask"
             title := "Implement " ++ pyTitle a ++ " API Endpoint"
             description := "Create backend API endpoint to handle " ++ a ++
               " operations for " ++ feature_type ++ "."
             technical_changes := StrOrList.list
               ["Create " ++ a ++ " API endpoint",
                "Add data validation",
                "Implement error handling"]
             files_to_modify := ["src/api/" ++ pyLower target_page ++ ".js"]
             dependencies := [frontend_subtask.title]
             acceptance_criteria :=
               ["API endpoint accepts " ++ a ++ " requests",
                "Proper validation and error responses",
                "Data persistence working correctly"]
             estimate := "Medium (5 story points)"
             priority := "Medium" }]
        else []
      | none => []
    let testing_subtask : Ticket := {
      ttype := "subtask"
      parent := some parent_story.title
      title := "Test " ++ pyTitle feature_type ++ " Implementation"
      description := "Create comprehensive tests for the " ++ feature_type ++
        " feature on " ++ target_page ++ " page."
      technical_changes := StrOrList.list
        ["Write unit tests for components",
         "Create integration tests",
         "Add end-to-end tests"]
      files_to_modify := ["tests/" ++ pyTitle target_page ++ pyTitle feature_type ++ ".test.js"]
      dependencies := [frontend_subtask.title]
      acceptance_criteria :=
        ["All unit tests pass",
         "Integration tests cover main flows",
         "E2E tests validate user journey"]
      estimate := "Small (2 story points)"
      priority := "Medium" }
    some ([parent_story, frontend_subtask] ++ backend_subtasks ++ [testing_subtask])
  | _, _ => none

/-- The affirmative tokens of `InteractivePromptNode.handle_user_response`. -/
def affirmativeTokens : List String := ["yes", "continue", "proceed", "ok", "sure"]

/-- The negative tokens of `InteractivePromptNode.handle_user_response`. -/
def negativeTokens : List String := ["no", "stop", "cancel", "end"]

/-- Whether the lowercased reply contains some affirmative token as a
substring (`any(word in response_lower for word in [...])`). -/
def hasAffirmTok (response : String) : Bool :=
  affirmativeTokens.any (fun w => strContains (pyLower response) w)

/-- Whether the lowercased reply contains some negative token as a substring. -/
def hasNegTok (response : String) : Bool :=
  negativeTokens.any (fun w => strContains (pyLower response) w)

/-- The `should_continue` decision of
`InteractivePromptNode.handle_user_response`: affirmative check first,
then negative, defaulting to continue. -/
def classifyShouldContinue (response : String) : Bool :=
  if hasAffirmTok response then true
  else if hasNegTok response then false
  else true

/-- Node statuses of the py_trees behavior tree. -/
inductive Status where
  | invalid
  | running
  | success
  | failure
deriving DecidableEq, Repr

/-- The formatted validation dict produced by
`_create_validation_langchain_chain` (its keys are always present;
`missing_info` and `suggestions` may be `None`). -/
structure VResp where
  can_proceed_autonomously : Bool
  missing_info : Option (List String)
  suggestions : Option (List String)
deriving DecidableEq, Repr

/-- `ParseFeatureRequestNode.update`, given the extractor outcome
(`none` models `parse_with_llm` raising).  Returns the node status and
the `parsed_data` it stores in the context; an empty feature request is
falsy and fails before the extractor is called.  On extractor failure
the `except` clause returns `Status.FAILURE`; no fallback parser is
invoked here (`_fallback_parsing` has no caller in the sources). -/
def parseFeatureRequest (feature_request : String) (extraction : Option FieldSet) :
    Status × Option FieldSet :=
  if feature_request = "" then (Status.failure, none)
  else
    match extraction with
    | none => (Status.failure, none)
    | some fs => (Status.success, some fs)

/-- `CheckIfEnoughInfoNode.update`, given the context `parsed_data`
(`none` models an absent or empty dict) and the validator outcome
(`none` models `parse_validation_with_llm` raising).  Returns the node
status, the `has_enough_info` flag, and the `missing_info` list put
into the context (a `None` stored by the validator behaves exactly
like `[]` downstream, so both collapse to `[]`). -/
def checkIfEnoughInfo (parsed_data : Option FieldSet) (validation : Option VResp) :
    Status × Bool × List String :=
  match parsed_data with
  | none => (Status.failure, false, [])
  | some _ =>
    match validation with
    | none => (Status.failure, false, [])
    | some v =>
      if v.can_proceed_autonomously then (Status.success, true, [])
      else (Status.failure, false, v.missing_info.getD [])

/-- The fixed fallback question list of `GetMoreInfoNode.update`,
used when the `_ask_llm` response has no `questions` key (which also
covers `_ask_llm` failing and returning the empty dict). -/
def fallbackQuestions : List String :=
  ["Which page should this feature be added to?",
   "What type of feature should be added?",
   "What should happen when this feature is used?"]

/-- The default codebase search queries of `GetMoreInfoNode.update`;
`parsed_data.get('target_page', 'dashboard')` falls back to
`'dashboard'` only when the whole dict is absent, otherwise it yields
the stored value, interpolating `None` for missing fields. -/
def defaultSearchQueries (parsed_data : Option FieldSet) : List String :=
  match parsed_data with
  | some fs =>
    ["search for " ++ pyStr fs.target_page ++ " components",
     "search for " ++ pyStr fs.feature_type ++ " implementations"]
  | none =>
    ["search for dashboard components",
     "search for button implementations"]

/-- The `_ask_llm` response consumed by `GetMoreInfoNode.update`; a
`none` entry models the key being absent from the returned dict (in
particular `_ask_llm` failing returns `\x7b\x7d`, the empty dict). -/
structure InfoResp where
  questions : Option (List String)
  search_queries : Option (List String)
deriving DecidableEq, Repr

/-- `GetMoreInfoNode.update`: with a falsy `missing_info` it returns
success immediately, producing no questions; otherwise the questions
are the LLM-provided list or the fixed three-question fallback. -/
def getMoreInfo (missing_info : List String) (parsed_data : Option FieldSet)
    (resp : InfoResp) : Status × List String × List String :=
  if missing_info = [] then (Status.success, [], [])
  else
    let questions := resp.questions.getD fallbackQuestions
    let search_queries := resp.search_queries.getD (defaultSearchQueries parsed_data)
    (Status.success, questions, search_queries)

/-- `GenerateTicketsNode.update`, given the `parse_text_with_llm`
outcome (`none` models it raising) and the context `parsed_data`.  Both
the try and the except branch end in `_generate_fallback_tickets`, so
the LLM text outcome never influences the tickets; a raise inside the
fallback generator itself escapes to the outer handler and the node
fails. -/
def generateTicketsUpdate (llm_text : Option String) (parsed_data : Option FieldSet) :
    Status × List Ticket :=
  match parsed_data with
  | none => (Status.failure, [])
  | some fs =>
    match generateFallbackTickets fs with
    | none => (Status.failure, [])
    | some ts => (Status.success, ts)

/-- Associative-list lookup for the session stores and dicts below. -/
def lookupAssoc {α : Type} (l : List (String × α)) (k : String) : Option α :=
  match l.find? (fun p => p.1 = k) with
  | some p => some p.2
  | none => none

/-- `ConversationSession.is_complete`: both required fields must be
present in `feature_info` with truthy (non-empty) values.  Note that
nothing in the sources ever writes to `feature_info`. -/
def isComplete (feature_info : List (String × String)) : Bool :=
  ["target_page", "feature_type"].all (fun f =>
    match lookupAssoc feature_info f with
    | some v => v ≠ ""
    | none => false)

/-! ## The behavior-tree engine (`LLMBehaviorTree.execute`)

The tree built by `create_tree` is a memory `Sequence` with children
`ParseFeatureRequest`, `CheckIfEnoughInfo` and the `InfoDecision`
selector; the selector manually ticks one of two memory sequences,
`GetMoreInformation` = [`GetMoreInfo`, `InteractivePrompt`] and
`GenerateTickets` = [`GenerateTickets`, `InteractivePrompt`].  The
engine below unrolls the py_trees tick over this fixed shape: a memory
sequence that is `RUNNING` resumes at its running child (here only the
selector, respectively a prompt node, can be left `RUNNING`). -/

/-- One external LLM conversation: the collaborator responses a single
`execute` call can observe.  `none` models the call raising. -/
structure Oracle where
  parseResult : Option FieldSet
  validationResult : Option VResp
  infoResult : InfoResp
  textResult : Option String

/-- The shared context dict threaded through every node by `setup`.
`workspace_path` is stored by the source but never read by any
decision, so it is omitted.  `clarification_needed` is read by the
prompt nodes with default `False` but no node ever writes it. -/
structure Ctx where
  feature_request : String
  user_response : Option String := none
  waiting_for_user_response : Bool := false
  parsed_data : Option FieldSet := none
  has_enough_info : Bool := false
  missing_info : List String := []
  clarification_questions : Option (List String) := none
  codebase_search_queries : Option (List String) := none
  tickets : List Ticket := []
  clarification_needed : Bool := false
  interactive_prompt : Option String := none
  should_continue : Option Bool := none
deriving DecidableEq, Repr

/-- Statuses and node attributes of the fixed tree; `prompt1` is the
`InteractivePrompt` inside `GetMoreInformation` (the one that the
pre-order `find_node_by_name` finds first), `prompt2` the one inside
the `GenerateTickets` sequence. -/
structure TreeSt where
  rootStatus : Status := Status.invalid
  parseStatus : Status := Status.invalid
  checkStatus : Status := Status.invalid
  selStatus : Status := Status.invalid
  getInfoSeqStatus : Status := Status.invalid
  getInfoStatus : Status := Status.invalid
  prompt1Status : Status := Status.invalid
  genSeqStatus : Status := Status.invalid
  genStatus : Status := Status.invalid
  prompt2Status : Status := Status.invalid
  parseParsedData : Option FieldSet := none
  getInfoQuestions : List String := []
  getInfoSearch : List String := []
  genTickets : List Ticket := []
  prompt1Message : String := ""
  prompt2Message : String := ""
deriving DecidableEq, Repr

/-- Instrumentation: how often each collaborator-facing step ran. -/
structure Counts where
  parseUpdateRuns : Nat := 0
  parseCalls : Nat := 0
  validationCalls : Nat := 0
  genRuns : Nat := 0
deriving DecidableEq, Repr

/-- `f"\x7bi\x7d. \x7bitem\x7d\n"` lines of the prompt builders. -/
def enumLines : Nat → List String → String
  | _, [] => ""
  | i, q :: rest => toString i ++ ". " ++ q ++ "\n" ++ enumLines (i + 1) rest

/-- The clarification prompt text of `InteractivePromptNode.update`. -/
def buildClarificationPrompt (questions search_queries : List String)
    (parsed_data : Option FieldSet) : String :=
  "I need some clarification to create comprehensive Jira tickets:\n\n" ++
  "**Questions for you:**\n" ++ enumLines 1 questions ++
  (if search_queries ≠ [] then
    "\n**Codebase searches to perform:**\n" ++ enumLines 1 search_queries
  else "") ++
  (match parsed_data with
   | some fs =>
     "\n**What I understand so far:**\n" ++
     "- Target page: " ++ pyStr fs.target_page ++ "\n" ++
     "- Feature type: " ++ pyStr fs.feature_type ++ "\n" ++
     "- Action: " ++ pyStr fs.action ++ "\n"
   | none => "") ++
  "\n**Please provide the missing information so I can continue.**"

/-- The bulleted acceptance-criteria lines of the ticket renderings. -/
def renderAcceptance : List String → String
  | [] => ""
  | c :: rest => "     • " ++ c ++ "\n" ++ renderAcceptance rest

/-- The parent-story blocks of the ticket renderings. -/
def renderParentStories : Nat → List Ticket → String
  | _, [] => ""
  | i, t :: rest =>
    "**Parent Story " ++ toString i ++ ":**\n" ++
    "- Title: " ++ t.title ++ "\n" ++
    "- Description: " ++ t.description ++ "\n" ++
    "- System Impact: " ++ t.system_impact.getD "Not specified" ++ "\n" ++
    "- Estimate: " ++ t.estimate ++ "\n" ++
    "- Priority: " ++ t.priority ++ "\n\n" ++
    renderParentStories (i + 1) rest

/-- The subtask blocks of the ticket renderings. -/
def renderSubtasks : Nat → List Ticket → String
  | _, [] => ""
  | i, t :: rest =>
    toString i ++ ". **" ++ t.title ++ "**\n" ++
    "   - Parent: " ++ t.parent.getD "No parent" ++ "\n" ++
    "   - Description: " ++ t.description ++ "\n" ++
    "   - Estimate: " ++ t.estimate ++ "\n" ++
    "   - Priority: " ++ t.priority ++ "\n" ++
    (if t.acceptance_criteria ≠ [] then
      "   - Acceptance Criteria:\n" ++ renderAcceptance t.acceptance_criteria
    else "") ++
    "\n" ++
    renderSubtasks (i + 1) rest

/-- The generated-tickets prompt text of `InteractivePromptNode.update`. -/
def buildTicketsPromptMsg (tickets : List Ticket) : String :=
  "✅ Perfect! I have enough information to create comprehensive Jira tickets.\n\n" ++
  (if tickets ≠ [] then
    "🎫 **Generated Jira Tickets (" ++ toString tickets.length ++ " total):**\n\n" ++
    renderParentStories 1 (tickets.filter (fun t => t.ttype == "parent_story")) ++
    (let subs := tickets.filter (fun t => t.ttype == "subtask")
     if subs ≠ [] then "**Subtasks:**\n" ++ renderSubtasks 1 subs else "")
  else "") ++
  "\n**Would you like me to continue with implementation planning or explore other aspects?**"

/-- The prompt-rendering branch of `InteractivePromptNode.update`,
entered when no (truthy) user response is in the context: render a
prompt, mark the context as waiting and stay `RUNNING`. -/
def promptPhase (ctx : Ctx) : Status × Ctx × Option String :=
  let m :=
    if ctx.clarification_needed then
      buildClarificationPrompt (ctx.clarification_questions.getD [])
        (ctx.codebase_search_queries.getD []) ctx.parsed_data
    else
      buildTicketsPromptMsg ctx.tickets
  (Status.running,
   { ctx with interactive_prompt := some m, waiting_for_user_response := true },
   some m)

/-- `InteractivePromptNode.update`: with a truthy `user_response` in
the context, `handle_user_response` classifies it and succeeds;
otherwise the node renders its prompt and keeps running.  The third
component is the `prompt_message` attribute written this tick, if any. -/
def promptTick (ctx : Ctx) : Status × Ctx × Option String :=
  match ctx.user_response with
  | some r =>
    if r = "" then promptPhase ctx
    else
      (Status.success,
       { ctx with waiting_for_user_response := false,
                  should_continue := some (classifyShouldContinue r) },
       none)
  | none => promptPhase ctx

/-- Tick of the `ParseFeatureRequest` child, with call counting: the
extractor is invoked exactly when the feature request is truthy. -/
def parseTick (o : Oracle) (st : TreeSt) (ctx : Ctx) (cnt : Counts) :
    Status × TreeSt × Ctx × Counts :=
  let cnt := { cnt with
    parseUpdateRuns := cnt.parseUpdateRuns + 1
    parseCalls := cnt.parseCalls + (if ctx.feature_request = "" then 0 else 1) }
  match parseFeatureRequest ctx.feature_request o.parseResult with
  | (s, some fs) =>
    (s, { st with parseStatus := s, parseParsedData := some fs },
     { ctx with parsed_data := some fs }, cnt)
  | (s, none) => (s, { st with parseStatus := s }, ctx, cnt)

/-- Tick of the `CheckIfEnoughInfo` child: the validator is invoked
exactly when `parsed_data` is truthy. -/
def checkTick (o : Oracle) (st : TreeSt) (ctx : Ctx) (cnt : Counts) :
    Status × TreeSt × Ctx × Counts :=
  let cnt := { cnt with
    validationCalls := cnt.validationCalls + (if ctx.parsed_data.isSome then 1 else 0) }
  let (s, enough, missing) := checkIfEnoughInfo ctx.parsed_data o.validationResult
  (s, { st with checkStatus := s },
   { ctx with has_enough_info := enough, missing_info := missing }, cnt)

/-- Tick of the `GetMoreInfo` child; its question and search-query
attributes and context keys are written only past the early return. -/
def getInfoTick (o : Oracle) (st : TreeSt) (ctx : Ctx) (cnt : Counts) :
    Status × TreeSt × Ctx × Counts :=
  let (s, qs, sq) := getMoreInfo ctx.missing_info ctx.parsed_data o.infoResult
  if ctx.missing_info = [] then (s, { st with getInfoStatus := s }, ctx, cnt)
  else
    (s, { st with getInfoStatus := s, getInfoQuestions := qs, getInfoSearch := sq },
     { ctx with clarification_questions := some qs, codebase_search_queries := some sq }, cnt)

/-- Tick of the `GenerateTickets` leaf node. -/
def genTick (o : Oracle) (st : TreeSt) (ctx : Ctx) (cnt : Counts) :
    Status × TreeSt × Ctx × Counts :=
  let cnt := { cnt with genRuns := cnt.genRuns + 1 }
  match generateTicketsUpdate o.textResult ctx.parsed_data with
  | (Status.success, ts) =>
    (Status.success, { st with genStatus := Status.success, genTickets := ts },
     { ctx with tickets := ts }, cnt)
  | (s, _) => (s, { st with genStatus := s }, ctx, cnt)

/-- One tick of the `GenerateTickets` memory sequence (ticket node,
then its prompt node); when already `RUNNING`, it resumes at the
prompt node. -/
def tickGenSeq (o : Oracle) (st : TreeSt) (ctx : Ctx) (cnt : Counts) :
    Status × TreeSt × Ctx × Counts :=
  if st.genSeqStatus = Status.running then
    let (s, ctx2, m) := promptTick ctx
    let st2 := { st with
      prompt2Status := s
      prompt2Message := m.getD st.prompt2Message
      genSeqStatus := s }
    (s, st2, ctx2, cnt)
  else
    let (gs, st1, ctx1, cnt1) := genTick o st ctx cnt
    if gs = Status.success then
      let (ps, ctx2, m) := promptTick ctx1
      let st2 := { st1 with
        prompt2Status := ps
        prompt2Message := m.getD st1.prompt2Message
        genSeqStatus := ps }
      (ps, st2, ctx2, cnt1)
    else (gs, { st1 with genSeqStatus := gs }, ctx1, cnt1)

/-- One tick of the `GetMoreInformation` memory sequence (info node,
then its prompt node); when already `RUNNING`, it resumes at the
prompt node. -/
def tickGetInfoSeq (o : Oracle) (st : TreeSt) (ctx : Ctx) (cnt : Counts) :
    Status × TreeSt × Ctx × Counts :=
  if st.getInfoSeqStatus = Status.running then
    let (s, ctx2, m) := promptTick ctx
    let st2 := { st with
      prompt1Status := s
      prompt1Message := m.getD st.prompt1Message
      getInfoSeqStatus := s }
    (s, st2, ctx2, cnt)
  else
    let (gs, st1, ctx1, cnt1) := getInfoTick o st ctx cnt
    if gs = Status.success then
      let (ps, ctx2, m) := promptTick ctx1
      let st2 := { st1 with
        prompt1Status := ps
        prompt1Message := m.getD st1.prompt1Message
        getInfoSeqStatus := ps }
      (ps, st2, ctx2, cnt1)
    else (gs, { st1 with getInfoSeqStatus := gs }, ctx1, cnt1)

/-- `SimpleSelector.update`: tick the ticket branch when
`has_enough_info` is set, otherwise the clarification branch, and
report that status; the selector is the last root child, so its status
becomes the root status. -/
def tickSelector (o : Oracle) (st : TreeSt) (ctx : Ctx) (cnt : Counts) :
    TreeSt × Ctx × Counts :=
  if ctx.has_enough_info then
    let (s, st2, ctx2, cnt2) := tickGenSeq o st ctx cnt
    ({ st2 with selStatus := s, rootStatus := s }, ctx2, cnt2)
  else
    let (s, st2, ctx2, cnt2) := tickGetInfoSeq o st ctx cnt
    ({ st2 with selStatus := s, rootStatus := s }, ctx2, cnt2)

/-- `tree.tick_once()` on the root memory sequence: a fresh root ticks
parse, then check, then the selector, stopping at the first non-success
child; a `RUNNING` root resumes at its running child, which can only be
the selector. -/
def tickOnce (o : Oracle) (st : TreeSt) (ctx : Ctx) (cnt : Counts) :
    TreeSt × Ctx × Counts :=
  if st.rootStatus = Status.running then tickSelector o st ctx cnt
  else
    let (ps, st1, ctx1, cnt1) := parseTick o st ctx cnt
    if ps = Status.success then
      let (cs, st2, ctx2, cnt2) := checkTick o st1 ctx1 cnt1
      if cs = Status.success then tickSelector o st2 ctx2 cnt2
      else ({ st2 with rootStatus := cs }, ctx2, cnt2)
    else ({ st1 with rootStatus := ps }, ctx1, cnt1)

/-- The result envelope an `execute` call hands back (modelled with
`Option` fields for keys that only some of the result dicts carry). -/
structure ExecResult where
  tickets : Option (List Ticket) := none
  clarification_needed : Bool
  clarification_questions : Option (List String) := none
  codebase_search_queries : Option (List String) := none
  parsed_data : Option FieldSet
  execution_path : String
  waiting_for_user_input : Bool
  prompt_message : Option String := none
deriving DecidableEq, Repr

/-- Whether `execute` returned a dict or raised an exception. -/
inductive ExecOutcome where
  | raised : ExecOutcome
  | returned : ExecResult → ExecOutcome
deriving DecidableEq, Repr

/-- Outcome of one `execute` call plus instrumentation. -/
structure ExecTrace where
  outcome : ExecOutcome
  ticks : Nat
  counts : Counts
deriving DecidableEq, Repr

/-- The fall-through result dict of `execute` (the
`Behavior tree execution: FAILURE` branch). -/
def treeErrorResult (parsed_data : Option FieldSet) : ExecResult :=
  { tickets := some []
    clarification_needed := true
    clarification_questions :=
      some ["Could you please provide more details about your feature request?"]
    parsed_data := parsed_data
    execution_path := "error"
    waiting_for_user_input := false }

/-- The `need_more_info` result dict of `execute`. -/
def needMoreInfoResult (st : TreeSt) : ExecResult :=
  { tickets := some []
    clarification_needed := true
    clarification_questions := some st.getInfoQuestions
    codebase_search_queries := some st.getInfoSearch
    parsed_data := st.parseParsedData
    execution_path := "need_more_info"
    waiting_for_user_input := false }

/-- The `waiting_for_user_input` result dict, built from the prompt
node that `_find_interactive_prompt_node` finds (the clarification
branch one, being first in pre-order). -/
def waitingResult (st : TreeSt) (ctx : Ctx) : ExecResult :=
  { clarification_needed := ctx.clarification_needed
    parsed_data := ctx.parsed_data
    execution_path := "waiting_for_user_input"
    waiting_for_user_input := true
    prompt_message := some st.prompt1Message }

/-- The result extraction at the end of `execute`.  When the
`GenerateTickets` sequence succeeded, `find_node_by_name(tree,
"GenerateTickets")` returns that `Sequence` (pre-order visits it before
the equally named leaf node), and a py_trees `Sequence` has no
`tickets` attribute, so building the success dict raises
`AttributeError`; the `GetMoreInformation`-succeeded branch builds the
`need_more_info` dict and everything else falls through to the error
dict. -/
def extractResult (st : TreeSt) (ticks : Nat) (cnt : Counts) : ExecTrace :=
  if st.genSeqStatus = Status.success then
    { outcome := ExecOutcome.raised, ticks := ticks, counts := cnt }
  else if st.getInfoSeqStatus = Status.success then
    { outcome := ExecOutcome.returned (needMoreInfoResult st), ticks := ticks, counts := cnt }
  else
    { outcome := ExecOutcome.returned (treeErrorResult st.parseParsedData),
      ticks := ticks, counts := cnt }

/-- `max_ticks = 100  # Prevent infinite loops`. -/
def maxTicks : Nat := 100

/-- The tick loop of `execute`: while the root is not terminal and the
tick budget remains, tick once and return the waiting result as soon
as the (first-found, clarification-branch) `InteractivePrompt` node is
`RUNNING`. -/
def runLoop (o : Oracle) : Nat → TreeSt → Ctx → Nat → Counts → ExecTrace
  | 0, st, _, ticks, cnt => extractResult st ticks cnt
  | Nat.succ fuel, st, ctx, ticks, cnt =>
    if st.rootStatus = Status.success ∨ st.rootStatus = Status.failure then
      extractResult st ticks cnt
    else
      let (st2, ctx2, cnt2) := tickOnce o st ctx cnt
      if st2.prompt1Status = Status.running then
        { outcome := ExecOutcome.returned (waitingResult st2 ctx2),
          ticks := ticks + 1, counts := cnt2 }
      else runLoop o fuel st2 ctx2 (ticks + 1) cnt2

/-- `LLMBehaviorTree.execute`: build a fresh tree and context (the
`user_response` context key is only added when the reply is truthy)
and run the tick loop. -/
def executeBT (o : Oracle) (feature_request : String) (user_response : Option String) :
    ExecTrace :=
  let ur := match user_response with
    | some r => if r = "" then none else some r
    | none => none
  runLoop o maxTicks {} { feature_request := feature_request, user_response := ur } 0 {}

/-! ## The MCP server session layer (`main.py`) -/

/-- `ConversationSession` (creation timestamps are wall-clock data with
no behavioral role and are omitted; the conversation history keeps the
role and content of each message). -/
structure Session where
  conversation_history : List (String × String) := []
  waiting_for_user_input : Bool := false
  current_prompt : Option String := none
  behavior_tree_state : Option ExecResult := none
  feature_info : List (String × String) := []
deriving DecidableEq, Repr

/-- A `continue_conversation` response dict; `Option` fields model the
keys that only some of the return dicts carry. -/
structure CCResponse where
  message : String
  session_id : Option String := none
  waiting_for_user_input : Option Bool := none
  prompt_message : Option String := none
  clarification_needed : Option Bool := none
  questions : Option (List String) := none
  codebase_search_queries : Option (List String) := none
  parsed_data : Option (Option FieldSet) := none
  tickets : Option (List Ticket) := none
  execution_path : Option String := none
deriving DecidableEq, Repr

/-- The response, the updated session store and (for instrumentation)
the behavior-tree execution a `continue_conversation` call performed. -/
structure CCOutput where
  response : CCResponse
  sessions : List (String × Session)
  trace : Option ExecTrace := none
deriving DecidableEq, Repr

/-- `self.sessions[sid]` lookup. -/
def lookupSession (sessions : List (String × Session)) (sid : String) : Option Session :=
  lookupAssoc sessions sid

/-- In-place mutation of the session object registered under `sid`. -/
def updateSession (sessions : List (String × Session)) (sid : String) (s : Session) :
    List (String × Session) :=
  sessions.map (fun p => if p.1 = sid then (sid, s) else p)

/-- The message of the `except` branch of `continue_conversation` for
the `AttributeError` raised inside `execute` on the ticket-success
path. -/
def attributeErrorMessage : String :=
  "❌ Error continuing conversation: \x27Sequence\x27 object has no attribute \x27tickets\x27"

/-- The still-need-clarification response of `continue_conversation`. -/
def ccClarificationResponse (res : ExecResult) (session_id : String) : CCResponse :=
  let questions := res.clarification_questions.getD []
  let search_queries := res.codebase_search_queries.getD []
  { message :=
      "I still need some clarification:\n\n**Questions for you:**\n" ++
      enumLines 1 questions ++
      (if search_queries ≠ [] then
        "\n**Codebase searches to perform:**\n" ++ enumLines 1 search_queries
      else "")
    clarification_needed := some true
    questions := some questions
    codebase_search_queries := some search_queries
    parsed_data := some res.parsed_data
    session_id := some session_id
    execution_path := some res.execution_path }

/-- The still-waiting response of `continue_conversation`. -/
def ccWaitingResponse (res : ExecResult) (session_id : String) : CCResponse :=
  { message := res.prompt_message.getD ""
    waiting_for_user_input := some true
    prompt_message := some (res.prompt_message.getD "")
    clarification_needed := some res.clarification_needed
    parsed_data := some res.parsed_data
    session_id := some session_id
    execution_path := some res.execution_path }

/-- The completed response of `continue_conversation` (unreachable in
the assembled system: `execute` raises before it can return a
non-clarification, non-waiting dict). -/
def ccCompletedResponse (res : ExecResult) (session_id : String) : CCResponse :=
  let tickets := res.tickets.getD []
  { message :=
      "✅ Thank you for the clarification! I\x27ve successfully generated comprehensive Jira tickets.\n\n" ++
      (if tickets ≠ [] then
        "🎫 **Generated Jira Tickets (" ++ toString tickets.length ++ " total):**\n\n" ++
        renderParentStories 1 (tickets.filter (fun t => t.ttype == "parent_story")) ++
        (let subs := tickets.filter (fun t => t.ttype == "subtask")
         if subs ≠ [] then "**Subtasks:**\n" ++ renderSubtasks 1 subs else "")
      else "")
    clarification_needed := some false
    tickets := some tickets
    parsed_data := some res.parsed_data
    session_id := some session_id
    execution_path := some res.execution_path }

/-- `MCPServer.continue_conversation`.  The stored
`behavior_tree_state` is one of the result dicts of `execute`, which
never carries `feature_request` or `workspace_path` keys, so the
`.get` calls always yield their defaults and the re-execution runs on
an empty request.  On the raised path, `clear_waiting_state` is never
reached. -/
def continueConversation (o : Oracle) (sessions : List (String × Session))
    (session_id : Option String) (user_response : String) : CCOutput :=
  match session_id with
  | none => { response := { message := "❌ Session ID is required" }, sessions := sessions }
  | some sid =>
    if sid = "" then
      { response := { message := "❌ Session ID is required" }, sessions := sessions }
    else if user_response = "" then
      { response := { message := "❌ User response is required" }, sessions := sessions }
    else
      match lookupSession sessions sid with
      | none =>
        { response := { message := "❌ Session " ++ sid ++ " not found" }, sessions := sessions }
      | some sess =>
        if sess.waiting_for_user_input = false then
          { response := { message := "❌ Session is not waiting for user input" },
            sessions := sessions }
        else
          let sess1 := { sess with
            conversation_history := sess.conversation_history ++ [("user", user_response)] }
          match sess1.behavior_tree_state with
          | none =>
            { response := { message := "❌ No behavior tree state found for this session" }
              sessions := updateSession sessions sid sess1 }
          | some _bts =>
            let feature_request := ""
            let tr := executeBT o feature_request (some user_response)
            match tr.outcome with
            | ExecOutcome.raised =>
              { response := { message := attributeErrorMessage }
                sessions := updateSession sessions sid sess1
                trace := some tr }
            | ExecOutcome.returned res =>
              let sess2 := { sess1 with
                waiting_for_user_input := false
                current_prompt := none
                behavior_tree_state := none }
              if res.waiting_for_user_input then
                let sess3 := { sess2 with
                  waiting_for_user_input := true
                  current_prompt := some (res.prompt_message.getD "")
                  behavior_tree_state := some res }
                { response := ccWaitingResponse res sid
                  sessions := updateSession sessions sid sess3
                  trace := some tr }
              else if res.clarification_needed then
                { response := ccClarificationResponse res sid
                  sessions := updateSession sessions sid sess2
                  trace := some tr }
              else
                { response := ccCompletedResponse res sid
                  sessions := updateSession sessions sid sess2
                  trace := some tr }

/-! ## Concrete fixtures for witnesses and counterexamples -/

/-- The FieldSet of end-to-end scenario A, all fields extracted. -/
def fsFull : FieldSet :=
  ⟨some "dashboard", some "button", some "save", "Add a save button to the dashboard page"⟩

/-- A FieldSet with `target_page` (and `action`) stored as `None`. -/
def fsNoPage : FieldSet := ⟨none, some "button", none, "add a button"⟩

/-- Collaborators that extract `fsFull` and validate it as sufficient. -/
def oracleSufficient : Oracle := ⟨some fsFull, some ⟨true, none, none⟩, ⟨none, none⟩, some "llm text"⟩

/-- Collaborators that extract `fsFull` but report insufficiency. -/
def oracleInsufficient : Oracle :=
  ⟨some fsFull, some ⟨false, some ["target_page"], none⟩, ⟨none, none⟩, some "llm text"⟩

/-- A stored behavior-tree state dict of the shape `execute` returns on
suspension (in particular, with no `feature_request` key). -/
def storedState : ExecResult :=
  waitingResult {} { feature_request := "Add a save button to the dashboard page" }

/-- A session suspended awaiting user input. -/
def sessionWaiting : Session :=
  { waiting_for_user_input := true
    current_prompt := some ""
    behavior_tree_state := some storedState }

/-- A session store holding one suspended session. -/
def serverWaiting : List (String × Session) := [("s1", sessionWaiting)]

/-! ## Helper lemmas -/

/-- The extraction step reports exactly the ticks the loop performed. -/
theorem extractResult_ticks (st : TreeSt) (ticks : Nat) (cnt : Counts) :
    (extractResult st ticks cnt).ticks = ticks := by
  unfold extractResult
  split
  · rfl
  · split <;> rfl

/-- The tick loop performs at most as many further ticks as it has fuel. -/
theorem runLoop_ticks_le (o : Oracle) :
    ∀ fuel st ctx ticks cnt, (runLoop o fuel st ctx ticks cnt).ticks ≤ ticks + fuel := by
  intro fuel
  induction fuel with
  | zero =>
    intro st ctx ticks cnt
    unfold runLoop
    rw [extractResult_ticks]
    omega
  | succ n ih =>
    intro st ctx ticks cnt
    unfold runLoop
    split
    · rw [extractResult_ticks]; omega
    · rcases htick : tickOnce o st ctx cnt with ⟨st2, ctx2, cnt2⟩
      simp only [htick]
      split
      · show ticks + 1 ≤ ticks + (n + 1)
        omega
      · have := ih st2 ctx2 (ticks + 1) cnt2
        omega

/-- Executing the tree on an empty feature request fails at the parse
step on the first tick, without calling any collaborator, and falls
through to the generic error result. -/
theorem executeBT_empty_request (o : Oracle) (ur : Option String) :
    executeBT o "" ur =
      { outcome := ExecOutcome.returned (treeErrorResult none)
        ticks := 1
        counts := { parseUpdateRuns := 1, parseCalls := 0, validationCalls := 0, genRuns := 0 } } := rfl

/-- Re-reading a session after its entry was overwritten yields the
new session object. -/
theorem lookupSession_updateSession (sid : String) (s : Session) :
    ∀ sessions sess, lookupSession sessions sid = some sess →
      lookupSession (updateSession sessions sid s) sid = some s := by
  intro sessions
  induction sessions with
  | nil => intro sess h; simp [lookupSession, lookupAssoc] at h
  | cons hd tl ih =>
    intro sess h
    by_cases hk : hd.1 = sid
    · simp [lookupSession, lookupAssoc, updateSession, List.find?, hk]
    · simp only [lookupSession, lookupAssoc, updateSession, List.map_cons, List.find?,
        if_neg hk, decide_eq_false hk] at h ⊢
      exact ih sess h

/-- A resume of a suspended session re-runs the whole tree on the
empty stored request: the parse step executes again (and fails), no
collaborator is called, the caller gets the generic clarification
error, and the session is left non-waiting with the reply appended. -/
theorem continueConversation_resume (o : Oracle) (sessions : List (String × Session))
    (sid reply : String) (hist : List (String × String)) (cp : Option String)
    (bts : ExecResult) (fi : List (String × String))
    (hsid : sid ≠ "") (hreply : reply ≠ "")
    (hlook : lookupSession sessions sid = some ⟨hist, true, cp, some bts, fi⟩) :
    continueConversation o sessions (some sid) reply =
      { response := ccClarificationResponse (treeErrorResult none) sid
        sessions := updateSession sessions sid ⟨hist ++ [("user", reply)], false, none, none, fi⟩
        trace := some { outcome := ExecOutcome.returned (treeErrorResult none)
                        ticks := 1
                        counts := { parseUpdateRuns := 1, parseCalls := 0,
                                    validationCalls := 0, genRuns := 0 } } } := by
  simp only [continueConversation, hsid, hreply, hlook, executeBT_empty_request,
    if_neg, ite_false, ite_true]
  rfl

/-! ## Claims -/

/-- C1 (counterexample): resuming a suspended session is claimed to
continue from the stored cursor without re-executing completed steps;
in fact the parse step executes again (`parseUpdateRuns = 1`, not `0`)
and the call does not re-enter the suspension point: it returns the
generic restart-failure clarification message. -/
theorem c1_counterexample :
    ((continueConversation oracleSufficient serverWaiting (some "s1") "yes, the dashboard").trace.map
      (fun tr => tr.counts.parseUpdateRuns)) = some 1 ∧
    (continueConversation oracleSufficient serverWaiting (some "s1") "yes, the dashboard").response.message =
      "I still need some clarification:\n\n**Questions for you:**\n1. Could you please provide more details about your feature request?\n" := by
  decide

/-- C1 (amended): on a later call carrying a resume payload for a
suspended session, the server re-executes the whole behavior tree from
scratch; the stored state has lost the request text, so the re-run
parse step executes again on an empty request and fails without any
collaborator call, and the caller receives the generic error outcome
instead of a continuation from the suspension point. -/
theorem c1_amended (o : Oracle) (sessions : List (String × Session))
    (sid reply : String) (hist : List (String × String)) (cp : Option String)
    (bts : ExecResult) (fi : List (String × String))
    (hsid : sid ≠ "") (hreply : reply ≠ "")
    (hlook : lookupSession sessions sid = some ⟨hist, true, cp, some bts, fi⟩) :
    (continueConversation o sessions (some sid) reply).trace =
      some { outcome := ExecOutcome.returned (treeErrorResult none)
             ticks := 1
             counts := { parseUpdateRuns := 1, parseCalls := 0,
                         validationCalls := 0, genRuns := 0 } } ∧
    (continueConversation o sessions (some sid) reply).response.tickets = none := by
  rw [continueConversation_resume o sessions sid reply hist cp bts fi hsid hreply hlook]
  exact ⟨rfl, rfl⟩

/-- C1 (witness for the amended claim) at a concrete suspended session. -/
theorem c1_amended_witness :
    (continueConversation oracleSufficient serverWaiting (some "s1") "resume please").trace =
      some { outcome := ExecOutcome.returned (treeErrorResult none)
             ticks := 1
             counts := { parseUpdateRuns := 1, parseCalls := 0,
                         validationCalls := 0, genRuns := 0 } } ∧
    (continueConversation oracleSufficient serverWaiting (some "s1") "resume please").response.tickets = none :=
  c1_amended oracleSufficient serverWaiting "s1" "resume please" [] (some "") storedState []
    (by decide) (by decide) (by decide)

/-- C2 (counterexample): on extractor failure the parse step does not
fall back to the pattern matcher; it produces a FAILURE outcome. -/
theorem c2_counterexample :
    parseFeatureRequest "Add a save button to the dashboard page" none =
      (Status.failure, none) := rfl

/-- C2 (amended): for a non-empty request, the parse step returns the
extractor FieldSet on success and a FAILURE outcome on extractor
failure; the deterministic fallback pattern matcher is never invoked
(`_fallback_parsing` has no caller). -/
theorem c2_amended (feature_request : String) (extraction : Option FieldSet)
    (h : feature_request ≠ "") :
    (extraction = none →
      parseFeatureRequest feature_request extraction = (Status.failure, none)) ∧
    (∀ fs, extraction = some fs →
      parseFeatureRequest feature_request extraction = (Status.success, some fs)) := by
  constructor
  · intro he
    subst he
    unfold parseFeatureRequest
    rw [if_neg h]
  · intro fs he
    subst he
    unfold parseFeatureRequest
    rw [if_neg h]

/-- C2 (witness for the amended claim). -/
theorem c2_amended_witness :
    parseFeatureRequest "Add a save button to the dashboard page" none =
      (Status.failure, none) ∧
    parseFeatureRequest "Add a save button to the dashboard page" (some fsFull) =
      (Status.success, some fsFull) :=
  ⟨(c2_amended "Add a save button to the dashboard page" none (by decide)).1 rfl,
   (c2_amended "Add a save button to the dashboard page" (some fsFull) (by decide)).2 fsFull rfl⟩

/-- C3 (counterexample): the claim promises exactly 3 tickets for this
non-persistence FieldSet, but with `target_page` stored as `None` the
generator raises `AttributeError` (`None.title()`) and produces no
ticket list at all. -/
theorem c3_counterexample : generateFallbackTickets fsNoPage = none := rfl

/-- C3 (amended): for every FieldSet whose `target_page` and
`feature_type` are present, the branch produces exactly one parent
story, always a frontend subtask, a backend subtask (the only subtask
without a parent reference) exactly when the action is a persistence
verb, and always a testing subtask depending on the frontend subtask;
so such a FieldSet yields 4 tickets with a persistence action and 3
otherwise.  When `target_page` or `feature_type` is absent the
generator instead raises. -/
theorem c3_amended (tp ft orig : String) (act : Option String) :
    ∃ ts : List Ticket,
      generateFallbackTickets ⟨some tp, some ft, act, orig⟩ = some ts ∧
      ts.length = (if isPersistenceAction act then 4 else 3) ∧
      (ts.filter (fun t => t.ttype == "parent_story")).length = 1 ∧
      (ts.filter (fun t => t.ttype == "subtask")).length =
        (if isPersistenceAction act then 3 else 2) ∧
      (ts.filter (fun t => t.ttype == "subtask" && t.parent == none)).length =
        (if isPersistenceAction act then 1 else 0) ∧
      (ts[1]?.map (fun t => (t.ttype, t.title))) =
        some ("subtask", "Create " ++ pyTitle ft ++ " Component for " ++ pyTitle tp) ∧
      ((ts[if isPersistenceAction act then 3 else 2]?).map
          (fun t => (t.ttype, t.title, t.dependencies))) =
        some ("subtask", "Test " ++ pyTitle ft ++ " Implementation",
          ["Create " ++ pyTitle ft ++ " Component for " ++ pyTitle tp]) := by
  cases act with
  | none => exact ⟨_, rfl, rfl, rfl, rfl, rfl, rfl, rfl⟩
  | some a =>
    unfold generateFallbackTickets isPersistenceAction
    cases hp : persistenceVerbs.contains a with
    | false =>
      simp only [hp, Bool.false_eq_true, if_false]
      exact ⟨_, rfl, rfl, rfl, rfl, rfl, rfl, rfl⟩
    | true =>
      simp only [hp, if_true]
      exact ⟨_, rfl, rfl, rfl, rfl, rfl, rfl, rfl⟩

/-- C4 (amended): the tick loop always terminates within the
100-tick cap, for every oracle, request and resume payload. -/
theorem c4_amended (o : Oracle) (feature_request : String) (user_response : Option String) :
    (executeBT o feature_request user_response).ticks ≤ maxTicks := by
  unfold executeBT
  have h := runLoop_ticks_le o maxTicks {}
    { feature_request := feature_request
      user_response := match user_response with
        | some r => if r = "" then none else some r
        | none => none } 0 {}
  simpa using h

set_option maxRecDepth 8000 in
/-- C4 (counterexample): cap exhaustion is not reported with a
distinguishable TickBudgetExhausted-style reason: a run that exhausts
all 100 ticks returns exactly the same result envelope as an ordinary
one-tick business failure (generic `execution_path = "error"`). -/
theorem c4_counterexample :
    (executeBT oracleSufficient "Add a save button to the dashboard page" none).ticks = maxTicks ∧
    (executeBT oracleSufficient "Add a save button to the dashboard page" none).outcome =
      (executeBT oracleInsufficient "Add a save button to the dashboard page" none).outcome ∧
    (executeBT oracleInsufficient "Add a save button to the dashboard page" none).ticks = 1 :=
  ⟨rfl, rfl, rfl⟩

/-- C5: resuming an unknown session id yields a user-visible error and
no state change; resuming a non-waiting session likewise; and after a
first resume of a suspended session has completed, a second resume
with the same reply is rejected with an error, changes no state and
performs no behavior-tree execution (hence no second ticket
generation). -/
theorem c5_confirmed (o o2 : Oracle) (sessions : List (String × Session)) (sid reply : String)
    (hsid : sid ≠ "") (hreply : reply ≠ "") :
    (lookupSession sessions sid = none →
      continueConversation o sessions (some sid) reply =
        { response := { message := "❌ Session " ++ sid ++ " not found" }
          sessions := sessions }) ∧
    (∀ sess, lookupSession sessions sid = some sess →
      sess.waiting_for_user_input = false →
      continueConversation o sessions (some sid) reply =
        { response := { message := "❌ Session is not waiting for user input" }
          sessions := sessions }) ∧
    (∀ hist cp bts fi,
      lookupSession sessions sid = some ⟨hist, true, cp, some bts, fi⟩ →
      continueConversation o2 (continueConversation o sessions (some sid) reply).sessions
          (some sid) reply =
        { response := { message := "❌ Session is not waiting for user input" }
          sessions := (continueConversation o sessions (some sid) reply).sessions }) := by
  refine ⟨?_, ?_, ?_⟩
  · intro hlook
    simp only [continueConversation, hsid, hreply, hlook, if_neg, ite_false, ite_true]
  · intro sess hlook hwait
    simp only [continueConversation, hsid, hreply, hlook, hwait, if_neg, ite_false, ite_true]
  · intro hist cp bts fi hlook
    rw [continueConversation_resume o sessions sid reply hist cp bts fi hsid hreply hlook]
    have hl2 : lookupSession
        (updateSession sessions sid ⟨hist ++ [("user", reply)], false, none, none, fi⟩) sid =
        some ⟨hist ++ [("user", reply)], false, none, none, fi⟩ :=
      lookupSession_updateSession sid _ sessions _ hlook
    simp only [continueConversation, hsid, hreply, hl2, if_neg, ite_false, ite_true]

/-- C5 (witness): the two-resume scenario at a concrete suspended
session: the second identical resume is rejected without touching the
store. -/
theorem c5_witness :
    continueConversation oracleSufficient
        (continueConversation oracleSufficient serverWaiting (some "s1") "yes").sessions
        (some "s1") "yes" =
      { response := { message := "❌ Session is not waiting for user input" }
        sessions := (continueConversation oracleSufficient serverWaiting (some "s1") "yes").sessions } :=
  (c5_confirmed oracleSufficient oracleSufficient serverWaiting "s1" "yes"
    (by decide) (by decide)).2.2 [] (some "") storedState [] (by decide)

/-- C6: the resume-reply classifier checks affirmative tokens first,
then negative tokens, and defaults to proceeding. -/
theorem c6_confirmed (reply : String) :
    (hasAffirmTok reply = true → classifyShouldContinue reply = true) ∧
    (hasAffirmTok reply = false → hasNegTok reply = true →
      classifyShouldContinue reply = false) ∧
    (hasAffirmTok reply = false → hasNegTok reply = false →
      classifyShouldContinue reply = true) := by
  refine ⟨?_, ?_, ?_⟩ <;> intro h <;>
    first
    | (intro h2; unfold classifyShouldContinue; rw [h, h2]; rfl)
    | (unfold classifyShouldContinue; rw [h]; rfl)

/-- C6 (witness): one reply per branch of the classifier. -/
theorem c6_witness :
    classifyShouldContinue "yes, the dashboard" = true ∧
    classifyShouldContinue "stop" = false ∧
    classifyShouldContinue "the dashboard" = true :=
  ⟨(c6_confirmed "yes, the dashboard").1 (by decide),
   (c6_confirmed "stop").2.1 (by decide) (by decide),
   (c6_confirmed "the dashboard").2.2 (by decide) (by decide)⟩

/-- C7 (counterexample): with a stubbed always-succeed validator the
gate reports sufficient even for a FieldSet whose `target_page` is
absent, refuting that the gate itself requires both fields. -/
theorem c7_counterexample :
    (checkIfEnoughInfo (some fsNoPage) (some ⟨true, none, none⟩)).1 = Status.success ∧
    fsNoPage.target_page = none := by decide

/-- C7 (amended): the gate verdict is exactly the validator verdict
(given parsed data): with an always-succeed validator every FieldSet,
both-fields-present ones included, is reported sufficient.  The
minimum requirement on `target_page` and `feature_type` exists only in
`ConversationSession.is_complete`, which the gate never consults. -/
theorem c7_amended (fs : FieldSet) (v : VResp) :
    (checkIfEnoughInfo (some fs) (some v)).1 =
      (if v.can_proceed_autonomously then Status.success else Status.failure) ∧
    (checkIfEnoughInfo (some fs) (some v)).2.1 = v.can_proceed_autonomously ∧
    (∀ fi, lookupAssoc fi "target_page" = none → isComplete fi = false) := by
  refine ⟨?_, ?_, ?_⟩
  · cases hv : v.can_proceed_autonomously <;> simp [checkIfEnoughInfo, hv]
  · cases hv : v.can_proceed_autonomously <;> simp [checkIfEnoughInfo, hv]
  · intro fi h
    simp [isComplete, h]

/-- C7 (witness for the amended claim). -/
theorem c7_amended_witness :
    (checkIfEnoughInfo (some fsNoPage) (some ⟨true, none, none⟩)).2.1 = true ∧
    isComplete [] = false :=
  ⟨by simpa using (c7_amended fsNoPage ⟨true, none, none⟩).2.1,
   (c7_amended fsNoPage ⟨true, none, none⟩).2.2 [] rfl⟩

/-- C8 (counterexample): the gate reports insufficiency (validator
declines with `missing_info = None`), yet the resulting questions list
is empty: `GetMoreInfoNode` returns success without producing any
question when the missing list is falsy. -/
theorem c8_counterexample :
    (checkIfEnoughInfo (some fsNoPage) (some ⟨false, none, none⟩)).2.1 = false ∧
    (getMoreInfo (checkIfEnoughInfo (some fsNoPage) (some ⟨false, none, none⟩)).2.2
      (some fsNoPage) ⟨none, none⟩).2.1 = [] := by
  decide

/-- C8 (amended): when the gate reports insufficiency with a non-empty
missing list, the outcome questions are the extractor-provided list
when one is present, and otherwise exactly the fixed 3-question
fallback, which includes a question referencing the page; with an
empty or absent missing list the node succeeds without producing
questions. -/
theorem c8_amended (missing : List String) (parsed : Option FieldSet) (resp : InfoResp)
    (hm : missing ≠ []) :
    (resp.questions = none →
      (getMoreInfo missing parsed resp).2.1 = fallbackQuestions ∧
      fallbackQuestions.length = 3 ∧
      ∃ q ∈ fallbackQuestions, strContains q "page" = true) ∧
    (∀ qs, resp.questions = some qs → (getMoreInfo missing parsed resp).2.1 = qs) := by
  constructor
  · intro hq
    refine ⟨?_, rfl, ⟨"Which page should this feature be added to?", by decide, by decide⟩⟩
    simp [getMoreInfo, hm, hq]
  · intro qs hq
    simp [getMoreInfo, hm, hq]

/-- C8 (witness for the amended claim). -/
theorem c8_amended_witness :
    (getMoreInfo ["target_page"] (some fsNoPage) ⟨none, none⟩).2.1 = fallbackQuestions ∧
    (getMoreInfo ["target_page"] (some fsNoPage) ⟨some ["Which layout?"], none⟩).2.1 =
      ["Which layout?"] :=
  ⟨((c8_amended ["target_page"] (some fsNoPage) ⟨none, none⟩ (by decide)).1 rfl).1,
   (c8_amended ["target_page"] (some fsNoPage) ⟨some ["Which layout?"], none⟩
     (by decide)).2 ["Which layout?"] rfl⟩

/-- C9: ticket generation is a deterministic function of the FieldSet:
two invocations of the ticket node on the same parsed data (even with
different LLM text outcomes) yield the same status and structurally
identical ticket sets: same count, same kinds, same titles. -/
theorem c9_confirmed (parsed_data : Option FieldSet) (llm_text1 llm_text2 : Option String) :
    (generateTicketsUpdate llm_text1 parsed_data).1 = (generateTicketsUpdate llm_text2 parsed_data).1 ∧
    (generateTicketsUpdate llm_text1 parsed_data).2.length =
      (generateTicketsUpdate llm_text2 parsed_data).2.length ∧
    ((generateTicketsUpdate llm_text1 parsed_data).2.map (fun t => t.ttype)) =
      ((generateTicketsUpdate llm_text2 parsed_data).2.map (fun t => t.ttype)) ∧
    ((generateTicketsUpdate llm_text1 parsed_data).2.map (fun t => t.title)) =
      ((generateTicketsUpdate llm_text2 parsed_data).2.map (fun t => t.title)) :=
  ⟨rfl, rfl, rfl, rfl⟩

/-- C10: token matching is substring containment on the lowercased
reply, and the affirmative check runs first, so any reply containing
an affirmative token as a substring — even inside a longer word or
alongside a negative token — yields `should_continue = True`. -/
theorem c10_confirmed (reply tok : String)
    (htok : tok ∈ affirmativeTokens)
    (hsub : strContains (pyLower reply) tok = true) :
    classifyShouldContinue reply = true := by
  have h : hasAffirmTok reply = true := by
    unfold hasAffirmTok
    exact List.any_eq_true.mpr ⟨tok, htok, hsub⟩
  unfold classifyShouldContinue
  rw [h]
  rfl

/-- C10 (witness): a reply with both an affirmative and a negative
token, and a reply containing `ok` only inside a longer word. -/
theorem c10_witness :
    classifyShouldContinue "ok, cancel that" = true ∧
    classifyShouldContinue "looking good" = true :=
  ⟨c10_confirmed "ok, cancel that" "ok" (by decide) (by decide),
   c10_confirmed "looking good" "ok" (by decide) (by decide)⟩

end ClaritaPM
